import Mathlib

/-!
Shallow embedding of the ModbusSimulator repository (modbus_simulator.py and
modbus_client.py) and proofs about the register codec, the server context
construction, the seeding/update generators, and the client polling cycle.

Conventions of the embedding:
* 16-bit registers and bytes are natural numbers (words are produced `% 2^16`
  and bytes `% 2^8` exactly where the source masks them).
* Python strings are byte lists (the source only handles ASCII payloads).
* Fallible Python code paths (struct.error, UnicodeEncodeError/DecodeError,
  TypeError) are modelled with `Except PyErr`.
* 32-bit floats are embedded at the bit-pattern level: a float value is its
  IEEE-754 single-precision bit pattern, a natural number below 2^32.  The
  pymodbus payload builder/decoder only moves these bits between the float and
  the two 16-bit registers, which is what the embedding captures.
-/

/-- Python exceptions that the embedded code paths can raise:
`struct.error` (unpacking a short buffer), `UnicodeEncodeError`/`UnicodeDecodeError`
(non-ASCII byte), and `TypeError` (formatting `None` with a float format spec). -/
inductive PyErr where
  | structError
  | unicodeError
  | typeError
deriving DecidableEq

deriving instance DecidableEq for Except

/-- A slave context's holding-register block: address to 16-bit word.  Mirrors
`ModbusSequentialDataBlock(0, [0] * 65536)` with `zero_mode=True` (addresses map
directly onto the array). -/
def RegFile : Type := Nat → Nat

/-- The freshly allocated data block `[0] * 65536`. -/
def zeroFile : RegFile := fun _ => 0

/-- `context.setValues(3, address, registers)`: store the register list starting
at `address`, leaving every other cell unchanged. -/
def setValues (st : RegFile) (a : Nat) (regs : List Nat) : RegFile :=
  fun x => if a ≤ x ∧ x < a + regs.length then regs.getD (x - a) 0 else st x

/-- `context.getValues(3, address, count)` / a holding-register read served from
the block: the `n` registers starting at `a`. -/
def getValues (st : RegFile) (a n : Nat) : List Nat :=
  (List.range n).map fun i => st (a + i)

/-- `write_float`'s payload construction: `BinaryPayloadBuilder(byteorder=BIG,
wordorder=BIG).add_32bit_float(value).to_registers()` packs the IEEE-754 single
bit pattern (`bits`) into two registers, most-significant word first. -/
def encode_float32 (bits : Nat) : List Nat := [bits / 65536, bits % 65536]

/-- `read_float`'s decode path: `BinaryPayloadDecoder.fromRegisters(regs,
byteorder=BIG, wordorder=BIG).decode_32bit_float()` on the two registers
recovers the 32-bit pattern (most-significant word first). -/
def decode_float32 : List Nat → Option Nat
  | [hi, lo] => some (hi * 65536 + lo)
  | _ => none

/-- `value.ljust(length, "\0")`: right-pad with NUL bytes up to `length`; a value
already at least `length` bytes long is returned unchanged. -/
def ljust (s : List Nat) (n : Nat) : List Nat := s ++ List.replicate (n - s.length) 0

/-- The loop `struct.unpack(">H", bytes_value[i : i + 2])[0] for i in
range(0, len(bytes_value), 2)`: pack consecutive byte pairs big-endian into one
register each.  A trailing single byte makes `struct.unpack` raise
`struct.error` (it requires a buffer of exactly 2 bytes). -/
def packRegisters : List Nat → Except PyErr (List Nat)
  | [] => .ok []
  | [_] => .error .structError
  | b0 :: b1 :: rest => (packRegisters rest).map fun rs => (b0 * 256 + b1) :: rs

/-- Total companion of `packRegisters` (agrees with it on even-length input). -/
def pack2 : List Nat → List Nat
  | [] => []
  | [_] => []
  | b0 :: b1 :: rest => (b0 * 256 + b1) :: pack2 rest

/-- `register.to_bytes(2, byteorder="big")` for each register, concatenated
(the client's register-to-byte conversion in `read_string`). -/
def unpackBytes : List Nat → List Nat
  | [] => []
  | r :: rest => r / 256 % 256 :: r % 256 :: unpackBytes rest

/-- `str.rstrip("\0")`: drop trailing NUL bytes. -/
def rstrip0 (l : List Nat) : List Nat := (l.reverse.dropWhile fun b => b == 0).reverse

/-- `write_string`'s register construction: pad to `length`, `encode("ascii")`
(raises on a byte above 127), then pack byte pairs (raises `struct.error` on a
trailing odd byte).  There is no check of `value`'s length against `length`. -/
def encode_ascii (s : List Nat) (n : Nat) : Except PyErr (List Nat) :=
  if (ljust s n).all (fun b => b < 128) then packRegisters (ljust s n)
  else .error .unicodeError

/-- `read_string`'s decode path on received registers: registers to bytes,
`bytes(...).decode("ascii")` (raises on a byte above 127), then strip trailing
NULs. -/
def decode_ascii (regs : List Nat) : Except PyErr (List Nat) :=
  if (unpackBytes regs).all (fun b => b < 128) then .ok (rstrip0 (unpackBytes regs))
  else .error .unicodeError

/-- `write_float(context, address, value)`: store the two encoded registers. -/
def write_float (st : RegFile) (addr bits : Nat) : RegFile :=
  setValues st addr (encode_float32 bits)

/-- `write_string(context, address, value, length)`: encode (which can raise)
and store the resulting registers. -/
def write_string (st : RegFile) (addr : Nat) (value : List Nat) (len : Nat) :
    Except PyErr RegFile :=
  (encode_ascii value len).map (setValues st addr)

/-- `read_string` served from a register file `st`: read `(length + 1) // 2`
registers at `addr` and decode them. -/
def read_string_from (st : RegFile) (addr len : Nat) : Except PyErr (List Nat) :=
  decode_ascii (getValues st addr ((len + 1) / 2))

/-- IEEE-754 single-precision bit pattern of 3.0 (`init_sfp_data`'s tx baseline). -/
def txBaseBits : Nat := 0x40400000

/-- IEEE-754 single-precision bit pattern of 0.1 (`init_sfp_data`'s rx baseline). -/
def rxBaseBits : Nat := 0x3DCCCCCD

/-- IEEE-754 single-precision bit pattern of 25.0 (the temperature baseline). -/
def tempBaseBits : Nat := 0x41C80000

/-- ASCII bytes of "PROD123456" (the product-number placeholder). -/
def PROD123456 : List Nat := [80, 82, 79, 68, 49, 50, 51, 52, 53, 54]

/-- ASCII bytes of "SN987654321" (the serial-number placeholder, 11 bytes). -/
def SN987654321 : List Nat := [83, 78, 57, 56, 55, 54, 53, 52, 51, 50, 49]

/-- ASCII bytes of "PROD123" (7 bytes). -/
def PROD123 : List Nat := [80, 82, 79, 68, 49, 50, 51]

/-- ASCII bytes of "SN98765432" (10 bytes). -/
def SN98765432 : List Nat := [83, 78, 57, 56, 55, 54, 53, 52, 51, 50]

/-- ASCII bytes of "PROD-12" (`update_values`' product-number refresh value). -/
def PROD_12 : List Nat := [80, 82, 79, 68, 45, 49, 50]

/-- ASCII bytes of "SN-Q10" (`update_values`' serial-number refresh value). -/
def SN_Q10 : List Nat := [83, 78, 45, 81, 49, 48]

/-- One SFP entry of the configuration: channel index plus the three field
addresses (`tx_power`, `rx_power`, `temperature`). -/
structure SfpFields where
  sfp : Nat
  tx_addr : Nat
  rx_addr : Nat
  temp_addr : Nat
deriving DecidableEq

/-- A string field of the `product_info` section: `{address, length}`. -/
structure StrField where
  address : Nat
  length : Nat
deriving DecidableEq

/-- The `product_info` map: optional `product_number` and `serial_number`. -/
structure ProductInfo where
  product_number : Option StrField
  serial_number : Option StrField
deriving DecidableEq

/-- A device's `registers` section: optional `sfps` list and `product_info` map. -/
structure DeviceRegs where
  sfps : Option (List SfpFields)
  product_info : Option ProductInfo
deriving DecidableEq

/-- One entry of `config["modbus_devices"]` (identifier and `registers`). -/
structure Device where
  device_id : Nat
  registers : Option DeviceRegs
deriving DecidableEq

/-- One iteration of `init_sfp_data`'s loop: SFP ids 1..4 get tx = 3.0,
rx = 0.1, temperature = 25.0 written (in that order); other ids are skipped. -/
def initSfpOne (st : RegFile) (s : SfpFields) : RegFile :=
  if s.sfp = 1 ∨ s.sfp = 2 ∨ s.sfp = 3 ∨ s.sfp = 4 then
    write_float (write_float (write_float st s.tx_addr txBaseBits) s.rx_addr rxBaseBits)
      s.temp_addr tempBaseBits
  else st

/-- `init_sfp_data(context, sfps)`: seed every listed SFP channel. -/
def init_sfp_data (st : RegFile) (sfps : List SfpFields) : RegFile :=
  sfps.foldl initSfpOne st

/-- Shared body of `init_product_info` and `update_product_info`: write the
product number (when configured), then the serial number (when configured);
a raise in the first write aborts before the second. -/
def write_product_pair (st : RegFile) (pinfo : ProductInfo) (pv sv : List Nat) :
    Except PyErr RegFile := do
  let st1 ← match pinfo.product_number with
    | some f => write_string st f.address pv f.length
    | none => pure st
  match pinfo.serial_number with
  | some f => write_string st1 f.address sv f.length
  | none => pure st1

/-- `init_product_info`: seed the placeholders "PROD123456" and "SN987654321". -/
def init_product_info (st : RegFile) (pinfo : ProductInfo) : Except PyErr RegFile :=
  write_product_pair st pinfo PROD123456 SN987654321

/-- `update_product_info(context, product_info, product_number, serial_number)`. -/
def update_product_info (st : RegFile) (pinfo : ProductInfo) (pv sv : List Nat) :
    Except PyErr RegFile :=
  write_product_pair st pinfo pv sv

/-- `contexts[device_id] = slave_context`: record a served id (a dict key). -/
def insertKey (ids : List Nat) (i : Nat) : List Nat :=
  if i ∈ ids then ids else ids ++ [i]

/-- One iteration of `_setup_server_context`'s device loop.  The accumulator is
the single shared slave context (created once, before the loop) together with
the device ids registered so far; ids outside {1, 2} are skipped entirely. -/
def setupStep (acc : RegFile × List Nat) (d : Device) : Except PyErr (RegFile × List Nat) :=
  if d.device_id = 1 ∨ d.device_id = 2 then
    match d.registers with
    | none => .ok (acc.1, insertKey acc.2 d.device_id)
    | some regs =>
      match d.device_id, regs.sfps, regs.product_info with
      | 1, some sfps, _ => .ok (init_sfp_data acc.1 sfps, insertKey acc.2 1)
      | 2, _, some pinfo =>
          (init_product_info acc.1 pinfo).map fun st => (st, insertKey acc.2 2)
      | _, _, _ => .ok (acc.1, insertKey acc.2 d.device_id)
  else .ok acc

/-- The server context: allocated slave contexts (`heap`, indexed by allocation
order) and the dict mapping each served device id to its context's index. -/
structure ServerContext where
  heap : List RegFile
  slaves : List (Nat × Nat)

/-- The fold inside `_setup_server_context`, starting from the one freshly
allocated slave context and an empty dict. -/
def setup_registers (ds : List Device) : Except PyErr (RegFile × List Nat) :=
  ds.foldlM setupStep (zeroFile, [])

/-- `_setup_server_context(self)`: a single `ModbusSlaveContext` is created
before the loop, and every served device id is bound to that same context
(heap index 0) in the resulting `ModbusServerContext(slaves=..., single=False)`. -/
def setup_server_context (ds : List Device) : Except PyErr ServerContext :=
  (setup_registers ds).map fun r => ⟨[r.1], r.2.map fun i => (i, 0)⟩

/-- Dict lookup in the slaves map. -/
def assocFind (i : Nat) : List (Nat × Nat) → Option Nat
  | [] => none
  | p :: rest => if p.1 = i then some p.2 else assocFind i rest

/-- A holding-register read served through a device id's slave context. -/
def ctxRead (sc : ServerContext) (dev addr n : Nat) : Option (List Nat) :=
  (assocFind dev sc.slaves).bind fun idx =>
    (sc.heap.get? idx).map fun st => getValues st addr n

/-- `write_float` performed through a device id's slave context (mutating the
context object that id is bound to). -/
def ctxWriteFloat (sc : ServerContext) (dev addr bits : Nat) : ServerContext :=
  match assocFind dev sc.slaves with
  | some idx =>
    match sc.heap.get? idx with
    | some st => ⟨sc.heap.set idx (write_float st addr bits), sc.slaves⟩
    | none => sc
  | none => sc

/-- The register file backing the (single) allocated slave context. -/
def theFile (sc : ServerContext) : RegFile := sc.heap.getD 0 zeroFile

/-- `update_values`' device-2 refresh condition: `counter % 10 == 0`. -/
def product_refresh_fires (counter : Nat) : Bool := counter % 10 == 0

/-- One pass of `update_values`' loop restricted to device 2's product-info
registers: when the counter condition fires, `update_product_info` writes the
fixed refresh values "PROD-12" and "SN-Q10". -/
def product_tick (pinfo : ProductInfo) (counter : Nat) (st : RegFile) :
    Except PyErr RegFile :=
  if product_refresh_fires counter then update_product_info st pinfo PROD_12 SN_Q10
  else .ok st

/-- The first `n` passes of `update_values`' loop (the counter starts at 0 and
is incremented after each pass), projected to device 2's product registers. -/
def run_product_ticks (pinfo : ProductInfo) (st : RegFile) : Nat → Except PyErr RegFile
  | 0 => .ok st
  | n + 1 => (run_product_ticks pinfo st n).bind (product_tick pinfo n)

/-- The Modbus transport as seen by the client: `(slave id, address, count)` to
registers; `none` models an error response or timeout (`response.isError()`). -/
def Transport : Type := Nat → Nat → Nat → Option (List Nat)

/-- `read_float(device_id, address)`: `None` on a transport error, otherwise the
decoded 32-bit pattern. -/
def read_float_t (T : Transport) (dev addr : Nat) : Option Nat :=
  (T dev addr 2).bind decode_float32

/-- `read_string(device_id, address, length)`: read `(length + 1) // 2`
registers; `None` on a transport error; decoding raises on a non-ASCII byte. -/
def read_string_t (T : Transport) (dev addr len : Nat) :
    Except PyErr (Option (List Nat)) :=
  match T dev addr ((len + 1) / 2) with
  | none => .ok none
  | some regs => (decode_ascii regs).map some

/-- Formatting a read result with the f-string spec `:.2f`: formatting `None`
raises `TypeError` (`unsupported format string passed to NoneType`). -/
def fmtFloat : Option Nat → Except PyErr Nat
  | some v => .ok v
  | none => .error .typeError

/-- `read_all_values`' per-SFP block: read `rx_power`, `tx_power`,
`temperature`, then print all three with `:.2f` (which raises on a `None`). -/
def read_sfp_t (T : Transport) (dev : Nat) (s : SfpFields) :
    Except PyErr (Nat × Nat × Nat) := do
  let rx := read_float_t T dev s.rx_addr
  let tx := read_float_t T dev s.tx_addr
  let temp := read_float_t T dev s.temp_addr
  let rxv ← fmtFloat rx
  let txv ← fmtFloat tx
  let tempv ← fmtFloat temp
  .ok (rxv, txv, tempv)

/-- The values printed for one device during a polling cycle: the SFP triples
and, for each configured string field, the read result (`none` inside the outer
`some` models a printed `None` after a transport error). -/
structure DeviceSnapshot where
  sfp_readings : List (Nat × Nat × Nat)
  product_number : Option (Option (List Nat))
  serial_number : Option (Option (List Nat))
deriving DecidableEq

/-- `read_all_values`' per-device body: SFP reads first, then product info. -/
def read_device_t (T : Transport) (d : Device) : Except PyErr DeviceSnapshot :=
  match d.registers with
  | none => .ok ⟨[], none, none⟩
  | some regs => do
    let sfpReads ← match regs.sfps with
      | some sfps => sfps.mapM (read_sfp_t T d.device_id)
      | none => .ok []
    match regs.product_info with
    | some pinfo => do
      let pn ← match pinfo.product_number with
        | some f => (read_string_t T d.device_id f.address f.length).map some
        | none => .ok none
      let sn ← match pinfo.serial_number with
        | some f => (read_string_t T d.device_id f.address f.length).map some
        | none => .ok none
      .ok ⟨sfpReads, pn, sn⟩
    | none => .ok ⟨sfpReads, none, none⟩

/-- One polling cycle of `read_all_values` over the configured devices; an
uncaught exception anywhere aborts the whole cycle. -/
def read_all_values (T : Transport) (ds : List Device) :
    Except PyErr (List DeviceSnapshot) :=
  ds.mapM (read_device_t T)

/-- `update_sfp_values`' tx computation in a real-valued model: the update-time
base 3.0 plus the `random.uniform(-0.05, 0.05)` draw. -/
def sfp_update_tx (u : ℚ) : ℚ := 3 + u

/-- `update_sfp_values`' rx computation: the update-time base 0.07 plus the
`random.uniform(-0.03, 0.03)` draw. -/
def sfp_update_rx (u : ℚ) : ℚ := 7 / 100 + u

/-- `update_sfp_values`' temperature computation: 25.0 plus the
`random.uniform(-1, 1)` draw. -/
def sfp_update_temp (u : ℚ) : ℚ := 25 + u

/-- `init_sfp_data`'s rx seed baseline 0.1, in the same real-valued model. -/
def sfp_seed_rx : ℚ := 1 / 10

/-- Disjointness of two register ranges, each given as (start, count). -/
def rdisj (p q : Nat × Nat) : Prop := p.1 + p.2 ≤ q.1 ∨ q.1 + q.2 ≤ p.1

instance (p q : Nat × Nat) : Decidable (rdisj p q) := by
  unfold rdisj
  exact inferInstance

/-- The three 2-register ranges occupied by one SFP channel's fields. -/
def sfpRanges (s : SfpFields) : List (Nat × Nat) :=
  [(s.tx_addr, 2), (s.rx_addr, 2), (s.temp_addr, 2)]

/-- All ranges occupied by a list of SFP channels. -/
def sfpsRanges : List SfpFields → List (Nat × Nat)
  | [] => []
  | s :: rest => sfpRanges s ++ sfpsRanges rest

/-- The register range occupied by a string field. -/
def strRange (f : StrField) : Nat × Nat := (f.address, (f.length + 1) / 2)

/-- The canonical configuration shape: device 1 carries the SFP channels,
device 2 the product-info strings (as in the repository's config). -/
def cfg7 (sfps : List SfpFields) (pn sn : StrField) : List Device :=
  [⟨1, some ⟨some sfps, none⟩⟩, ⟨2, some ⟨none, some ⟨some pn, some sn⟩⟩⟩]

/-- A two-device configuration with no register payloads. -/
def cfg9 : List Device := [⟨1, none⟩, ⟨2, none⟩]

/-- The server context `_setup_server_context` builds for `cfg9`: one slave
context, both device ids bound to it. -/
def sc9 : ServerContext := ⟨[zeroFile], [(1, 0), (2, 0)]⟩

/-- Boolean success test on a construction result. -/
def exceptOk {α : Type} : Except PyErr α → Bool
  | .ok _ => true
  | .error _ => false

/-- A configuration in which two devices both declare id 1. -/
def cfg8 : List Device := [⟨1, none⟩, ⟨1, none⟩]

/-- A two-device configuration for a polling cycle: device 1 with two SFP
channels, device 2 with both product-info strings. -/
def cfgC5 : List Device :=
  [⟨1, some ⟨some [⟨1, 100, 102, 104⟩, ⟨2, 110, 112, 114⟩], none⟩⟩,
   ⟨2, some ⟨none, some ⟨some ⟨200, 16⟩, some ⟨220, 16⟩⟩⟩⟩]

/-- A transport that fails exactly on device 1's address 102 (SFP 1's
`rx_power` field) and serves all-zero registers everywhere else. -/
def transportC5 : Transport := fun dev addr cnt =>
  if dev = 1 ∧ addr = 102 then none else some (List.replicate cnt 0)

/-- The same transport with no failures. -/
def transportOk : Transport := fun _ _ cnt => some (List.replicate cnt 0)

theorem range_map_getD : ∀ (l : List Nat),
    (List.range l.length).map (fun i => l.getD i 0) = l
  | [] => rfl
  | x :: xs => by
    rw [List.length_cons, List.range_succ_eq_map, List.map_cons, List.map_map]
    have h : ((fun i => (x :: xs).getD i 0) ∘ Nat.succ) = fun i => xs.getD i 0 := by
      funext i
      simp [List.getD_cons_succ]
    rw [h, range_map_getD xs]
    simp [List.getD_cons_zero]

theorem getValues_setValues_self (st : RegFile) (a : Nat) (regs : List Nat) :
    getValues (setValues st a regs) a regs.length = regs := by
  unfold getValues setValues
  have h : ∀ i ∈ List.range regs.length,
      (if a ≤ a + i ∧ a + i < a + regs.length then regs.getD (a + i - a) 0
        else st (a + i)) = regs.getD i 0 := by
    intro i hi
    rw [List.mem_range] at hi
    rw [if_pos ⟨Nat.le_add_right a i, by omega⟩, Nat.add_sub_cancel_left]
  rw [List.map_congr_left h, range_map_getD]

theorem getValues_setValues_disjoint (st : RegFile) (a : Nat) (regs : List Nat)
    (b n : Nat) (h : a + regs.length ≤ b ∨ b + n ≤ a) :
    getValues (setValues st a regs) b n = getValues st b n := by
  unfold getValues setValues
  refine List.map_congr_left ?_
  intro i hi
  rw [List.mem_range] at hi
  rw [if_neg]
  omega

theorem list_two_induction {P : List Nat → Prop} (h0 : P []) (h1 : ∀ b, P [b])
    (h2 : ∀ b0 b1 r, P r → P (b0 :: b1 :: r)) : ∀ l, P l
  | [] => h0
  | [b] => h1 b
  | b0 :: b1 :: r => h2 b0 b1 r (list_two_induction h0 h1 h2 r)

theorem packRegisters_even (l : List Nat) (h : l.length % 2 = 0) :
    packRegisters l = .ok (pack2 l) := by
  induction l using list_two_induction with
  | h0 => rfl
  | h1 b => simp at h
  | h2 b0 b1 r ih =>
    have hr : r.length % 2 = 0 := by simp at h; omega
    simp [packRegisters, pack2, ih hr, Except.map]

theorem packRegisters_odd (l : List Nat) (h : l.length % 2 = 1) :
    packRegisters l = .error .structError := by
  induction l using list_two_induction with
  | h0 => simp at h
  | h1 b => rfl
  | h2 b0 b1 r ih =>
    have hr : r.length % 2 = 1 := by simp at h; omega
    simp [packRegisters, ih hr, Except.map]

theorem pack2_length (l : List Nat) : (pack2 l).length = l.length / 2 := by
  induction l using list_two_induction with
  | h0 => rfl
  | h1 b => simp [pack2]
  | h2 b0 b1 r ih => simp [pack2, ih]; omega

theorem unpackBytes_pack2 (l : List Nat) (hb : ∀ b ∈ l, b < 256)
    (h : l.length % 2 = 0) : unpackBytes (pack2 l) = l := by
  induction l using list_two_induction with
  | h0 => rfl
  | h1 b => simp at h
  | h2 b0 b1 r ih =>
    have hr : r.length % 2 = 0 := by simp at h; omega
    have h0 : b0 < 256 := hb b0 (by simp)
    have h1 : b1 < 256 := hb b1 (by simp)
    have hrest : ∀ b ∈ r, b < 256 := fun b hbr => hb b (by simp [hbr])
    simp only [pack2, unpackBytes, ih hrest hr]
    have e0 : (b0 * 256 + b1) / 256 % 256 = b0 := by omega
    have e1 : (b0 * 256 + b1) % 256 = b1 := by omega
    rw [e0, e1]

theorem rstrip0_append_zeros (s : List Nat) (k : Nat) :
    rstrip0 (s ++ List.replicate k 0) = rstrip0 s := by
  unfold rstrip0
  rw [List.reverse_append, List.reverse_replicate]
  congr 1
  induction k with
  | zero => simp
  | succ k ih =>
    rw [List.replicate_succ, List.cons_append, List.dropWhile_cons, if_pos (by rfl)]
    exact ih

theorem ljust_length (s : List Nat) (n : Nat) (h : s.length ≤ n) :
    (ljust s n).length = n := by
  simp [ljust]
  omega

theorem ljust_all_lt128 (s : List Nat) (n : Nat) (h : ∀ b ∈ s, b < 128) :
    ((ljust s n).all fun b => b < 128) = true := by
  rw [List.all_eq_true]
  intro b hb
  rw [decide_eq_true_iff]
  rcases List.mem_append.1 hb with h1 | h2
  · exact h b h1
  · have := List.eq_of_mem_replicate h2
    omega

theorem encode_ascii_ok (s : List Nat) (n : Nat) (hascii : ∀ b ∈ s, b < 128)
    (hlen : s.length ≤ n) (heven : n % 2 = 0) :
    encode_ascii s n = .ok (pack2 (ljust s n)) := by
  unfold encode_ascii
  rw [ljust_all_lt128 s n hascii, if_pos rfl,
    packRegisters_even _ (by rw [ljust_length s n hlen]; exact heven)]

theorem decode_ascii_pack2 (l : List Nat) (hb : ∀ b ∈ l, b < 128)
    (h : l.length % 2 = 0) : decode_ascii (pack2 l) = .ok (rstrip0 l) := by
  unfold decode_ascii
  rw [unpackBytes_pack2 l (fun b hbl => Nat.lt_trans (hb b hbl) (by norm_num)) h]
  rw [if_pos]
  rw [List.all_eq_true]
  intro b hbl
  rw [decide_eq_true_iff]
  exact hb b hbl

theorem ascii_roundtrip_core (s : List Nat) (n : Nat) (hascii : ∀ b ∈ s, b < 128)
    (hlen : s.length ≤ n) (heven : n % 2 = 0) :
    (encode_ascii s n).bind decode_ascii = .ok (rstrip0 s) := by
  rw [encode_ascii_ok s n hascii hlen heven]
  show decode_ascii (pack2 (ljust s n)) = .ok (rstrip0 s)
  have hb : ∀ b ∈ ljust s n, b < 128 := by
    intro b hb
    rcases List.mem_append.1 hb with h1 | h2
    · exact hascii b h1
    · have := List.eq_of_mem_replicate h2
      omega
  rw [decode_ascii_pack2 _ hb (by rw [ljust_length s n hlen]; exact heven)]
  unfold ljust
  rw [rstrip0_append_zeros]

theorem decode_encode_float (bits : Nat) :
    decode_float32 (encode_float32 bits) = some bits := by
  simp [decode_float32, encode_float32]
  omega

/-- C1: decoding the two 16-bit registers produced by the float encoder
(big-endian byte order, most-significant word first) returns the encoded
finite 32-bit float bit-exactly: the simulator's `write_float` payload followed
by the client's `read_float` decode path is the identity on the float's 32-bit
pattern. -/
theorem c1_float_roundtrip (bits : Nat) (h : bits < 2 ^ 32) :
    decode_float32 (encode_float32 bits) = some bits :=
  decode_encode_float bits

theorem c1_float_roundtrip_witness :
    0x40400000 < 2 ^ 32 ∧
      decode_float32 (encode_float32 0x40400000) = some 0x40400000 :=
  ⟨by norm_num, c1_float_roundtrip 0x40400000 (by norm_num)⟩

/-- C2 counterexample: the claim includes odd declared lengths ("n even or
odd"), but for the ASCII string "A" and odd length 3 the encoder raises
`struct.error` on the trailing pad byte, so the round trip does not return
the string. -/
theorem c2_roundtrip_counterexample :
    (encode_ascii [65] 3).bind decode_ascii ≠ Except.ok [65] := by decide

/-- C2 amended: for every ASCII string `s` and every even declared length `n`
with `s.length ≤ n`, provided `s` itself carries no trailing NUL bytes
(`read_string`'s `rstrip("\0")` would also strip those), encoding at length `n`
and decoding the resulting registers returns exactly `s`.  For odd `n` the
encoder raises instead of producing registers. -/
theorem c2_ascii_roundtrip (s : List Nat) (n : Nat) (hascii : ∀ b ∈ s, b < 128)
    (hlen : s.length ≤ n) (heven : n % 2 = 0) (hnotrail : rstrip0 s = s) :
    (encode_ascii s n).bind decode_ascii = .ok s := by
  rw [ascii_roundtrip_core s n hascii hlen heven, hnotrail]

theorem c2_ascii_roundtrip_witness :
    (∀ b ∈ PROD123456, b < 128) ∧ PROD123456.length ≤ 16 ∧ 16 % 2 = 0 ∧
      rstrip0 PROD123456 = PROD123456 ∧
      (encode_ascii PROD123456 16).bind decode_ascii = .ok PROD123456 :=
  ⟨by decide, by decide, by decide, by decide,
    c2_ascii_roundtrip PROD123456 16 (by decide) (by decide) (by decide) (by decide)⟩

/-- C3 counterexample: `encode_ascii "PROD123" 11` does not yield 6 registers
with a zero pad in the final low byte; the final chunk `bytes_value[10:12]` is a
single byte and `struct.unpack(">H", ...)` raises `struct.error`. -/
theorem c3_odd_length_counterexample :
    encode_ascii PROD123 11 = .error .structError := by decide

/-- C3 amended: for every ASCII string `s` and every odd declared maximum
length `n` with `s.length ≤ n`, the string encoder fails with `struct.error`
on the final single-byte chunk and produces no registers; in particular
`encode_ascii "PROD123" 11` fails rather than yielding 6 registers. -/
theorem c3_odd_length_fails (s : List Nat) (n : Nat) (hascii : ∀ b ∈ s, b < 128)
    (hlen : s.length ≤ n) (hodd : n % 2 = 1) :
    encode_ascii s n = .error .structError := by
  unfold encode_ascii
  rw [ljust_all_lt128 s n hascii, if_pos rfl,
    packRegisters_odd _ (by rw [ljust_length s n hlen]; exact hodd)]

theorem c3_odd_length_fails_witness :
    (∀ b ∈ PROD123, b < 128) ∧ PROD123.length ≤ 11 ∧ 11 % 2 = 1 ∧
      encode_ascii PROD123 11 = .error .structError :=
  ⟨by decide, by decide, by decide,
    c3_odd_length_fails PROD123 11 (by decide) (by decide) (by decide)⟩

/-- C4 counterexample: the encoder performs no maximum-length check, so there
is no `StringTooLong` failure: encoding the 10-byte ASCII value "SN98765432"
with `max_len = 8` succeeds and yields 5 registers, exceeding
`ceil(8 / 2) = 4`. -/
theorem c4_no_length_check_counterexample :
    encode_ascii SN98765432 8 = .ok [21326, 14648, 14134, 13620, 13106] := by
  decide

/-- C4 amended: `write_string` never validates `value`'s byte length against
`max_len` (when the value is at least `max_len` bytes long, `ljust` is a no-op).
A too-long value of even byte length is silently encoded in full, yielding
`len / 2` registers (more than `ceil(max_len / 2)` whenever `len > max_len`);
a too-long value of odd byte length raises `struct.error` — not
`StringTooLong`.  In particular "SN987654321" (11 bytes) with `max_len = 8`
raises `struct.error`. -/
theorem c4_no_length_check (s : List Nat) (n : Nat) (hascii : ∀ b ∈ s, b < 128)
    (hover : n ≤ s.length) :
    (s.length % 2 = 0 →
      encode_ascii s n = .ok (pack2 s) ∧ (pack2 s).length = s.length / 2) ∧
    (s.length % 2 = 1 → encode_ascii s n = .error .structError) := by
  have hj : ljust s n = s := by
    unfold ljust
    rw [Nat.sub_eq_zero_of_le hover]
    simp
  have hall : ((ljust s n).all fun b => b < 128) = true := ljust_all_lt128 s n hascii
  constructor
  · intro hpar
    refine ⟨?_, pack2_length s ▸ rfl⟩
    unfold encode_ascii
    rw [hall, if_pos rfl, hj, packRegisters_even s hpar]
  · intro hpar
    unfold encode_ascii
    rw [hall, if_pos rfl, hj, packRegisters_odd s hpar]

theorem c4_no_length_check_witness :
    (∀ b ∈ SN987654321, b < 128) ∧ 8 ≤ SN987654321.length ∧
      ((SN987654321.length % 2 = 0 →
        encode_ascii SN987654321 8 = .ok (pack2 SN987654321) ∧
          (pack2 SN987654321).length = SN987654321.length / 2) ∧
      (SN987654321.length % 2 = 1 →
        encode_ascii SN987654321 8 = .error .structError)) :=
  ⟨by decide, by decide, c4_no_length_check SN987654321 8 (by decide) (by decide)⟩

/-- C6 counterexample: the drift tick does not use the rx seed baseline.
`init_sfp_data` seeds rx at 0.1 while `update_sfp_values` drifts around 0.07,
so the draw -0.03 (inside the stated range) produces rx = 0.04, which is not
within the seed baseline 0.1 plus or minus 0.03. -/
theorem c6_rx_baseline_counterexample :
    |(-3 / 100 : ℚ)| ≤ 3 / 100 ∧
      ¬ |sfp_update_rx (-3 / 100) - sfp_seed_rx| ≤ 3 / 100 := by
  constructor
  · rw [abs_le]
    norm_num
  · rw [abs_le]
    norm_num [sfp_update_rx, sfp_seed_rx]

/-- C6 amended: after one drift tick, with each uniform draw inside its stated
range, tx lies within 3.0 plus or minus 0.05, temperature within 25.0 plus or
minus 1.0, and rx within 0.07 plus or minus 0.03 — where 0.07 is
`update_sfp_values`' own rx base, which differs from the 0.1 rx baseline that
`init_sfp_data` seeds (the tx and temperature bases do coincide with the
seeds). -/
theorem c6_drift_bounds (utx urx ut : ℚ) (h1 : |utx| ≤ 5 / 100)
    (h2 : |urx| ≤ 3 / 100) (h3 : |ut| ≤ 1) :
    |sfp_update_tx utx - 3| ≤ 5 / 100 ∧ |sfp_update_rx urx - 7 / 100| ≤ 3 / 100 ∧
      |sfp_update_temp ut - 25| ≤ 1 := by
  refine ⟨?_, ?_, ?_⟩
  · rw [sfp_update_tx, add_sub_cancel_left]
    exact h1
  · rw [sfp_update_rx, add_sub_cancel_left]
    exact h2
  · rw [sfp_update_temp, add_sub_cancel_left]
    exact h3

theorem c6_drift_bounds_witness :
    |(0 : ℚ)| ≤ 5 / 100 ∧ |(0 : ℚ)| ≤ 3 / 100 ∧ |(0 : ℚ)| ≤ 1 ∧
      (|sfp_update_tx 0 - 3| ≤ 5 / 100 ∧ |sfp_update_rx 0 - 7 / 100| ≤ 3 / 100 ∧
        |sfp_update_temp 0 - 25| ≤ 1) :=
  ⟨by norm_num, by norm_num, by norm_num,
    c6_drift_bounds 0 0 0 (by norm_num) (by norm_num) (by norm_num)⟩

theorem rdisj_symm {p q : Nat × Nat} (h : rdisj p q) : rdisj q p := h.symm

theorem mem_sfpsRanges {s : SfpFields} {sfps : List SfpFields} (hs : s ∈ sfps)
    {p : Nat × Nat} (hp : p ∈ sfpRanges s) : p ∈ sfpsRanges sfps := by
  induction hs with
  | head as => exact List.mem_append.2 (Or.inl hp)
  | tail b hmem ih => exact List.mem_append.2 (Or.inr ih)

theorem getValues_initSfpOne_frame (st : RegFile) (s : SfpFields) (b n : Nat)
    (h : ∀ p ∈ sfpRanges s, rdisj p (b, n)) :
    getValues (initSfpOne st s) b n = getValues st b n := by
  unfold initSfpOne
  split
  · unfold write_float
    have htx := h (s.tx_addr, 2) (by simp [sfpRanges])
    have hrx := h (s.rx_addr, 2) (by simp [sfpRanges])
    have htm := h (s.temp_addr, 2) (by simp [sfpRanges])
    unfold rdisj at htx hrx htm
    rw [getValues_setValues_disjoint _ _ _ _ _ (by simpa [encode_float32] using htm),
      getValues_setValues_disjoint _ _ _ _ _ (by simpa [encode_float32] using hrx),
      getValues_setValues_disjoint _ _ _ _ _ (by simpa [encode_float32] using htx)]
  · rfl

theorem getValues_init_sfp_frame (sfps : List SfpFields) (st : RegFile) (b n : Nat)
    (h : ∀ p ∈ sfpsRanges sfps, rdisj p (b, n)) :
    getValues (init_sfp_data st sfps) b n = getValues st b n := by
  induction sfps generalizing st with
  | nil => rfl
  | cons s rest ih =>
    show getValues (init_sfp_data (initSfpOne st s) rest) b n = _
    rw [ih (initSfpOne st s)
      (fun p hp => h p (List.mem_append.2 (Or.inr hp)))]
    exact getValues_initSfpOne_frame st s b n
      (fun p hp => h p (List.mem_append.2 (Or.inl hp)))

theorem initSfpOne_reads (st : RegFile) (s : SfpFields)
    (hid : s.sfp = 1 ∨ s.sfp = 2 ∨ s.sfp = 3 ∨ s.sfp = 4)
    (hdisj : (sfpRanges s).Pairwise rdisj) :
    getValues (initSfpOne st s) s.tx_addr 2 = encode_float32 txBaseBits ∧
    getValues (initSfpOne st s) s.rx_addr 2 = encode_float32 rxBaseBits ∧
    getValues (initSfpOne st s) s.temp_addr 2 = encode_float32 tempBaseBits := by
  unfold sfpRanges at hdisj
  rw [List.pairwise_cons, List.pairwise_cons] at hdisj
  obtain ⟨htx, hrx, -⟩ := hdisj
  have htxrx : rdisj (s.tx_addr, 2) (s.rx_addr, 2) := htx _ (by simp)
  have htxtm : rdisj (s.tx_addr, 2) (s.temp_addr, 2) := htx _ (by simp)
  have hrxtm : rdisj (s.rx_addr, 2) (s.temp_addr, 2) := hrx _ (by simp)
  unfold rdisj at htxrx htxtm hrxtm
  unfold initSfpOne write_float
  rw [if_pos hid]
  refine ⟨?_, ?_, ?_⟩
  · rw [getValues_setValues_disjoint _ _ _ _ _ (by simpa [encode_float32] using htxtm.symm),
      getValues_setValues_disjoint _ _ _ _ _ (by simpa [encode_float32] using htxrx.symm)]
    exact getValues_setValues_self st s.tx_addr (encode_float32 txBaseBits)
  · rw [getValues_setValues_disjoint _ _ _ _ _ (by simpa [encode_float32] using hrxtm.symm)]
    exact getValues_setValues_self _ s.rx_addr (encode_float32 rxBaseBits)
  · exact getValues_setValues_self _ s.temp_addr (encode_float32 tempBaseBits)

theorem init_sfp_reads (sfps : List SfpFields) : ∀ (st : RegFile),
    (sfpsRanges sfps).Pairwise rdisj →
    ∀ s ∈ sfps, (s.sfp = 1 ∨ s.sfp = 2 ∨ s.sfp = 3 ∨ s.sfp = 4) →
      getValues (init_sfp_data st sfps) s.tx_addr 2 = encode_float32 txBaseBits ∧
      getValues (init_sfp_data st sfps) s.rx_addr 2 = encode_float32 rxBaseBits ∧
      getValues (init_sfp_data st sfps) s.temp_addr 2 = encode_float32 tempBaseBits := by
  induction sfps with
  | nil => intro st _ s hs; cases hs
  | cons hd rest ih =>
    intro st hdisj s hs hid
    have hsplit := List.pairwise_append.1 hdisj
    obtain ⟨hhd, hrest, hcross⟩ := hsplit
    show _ ∧ _ ∧ _
    rcases List.mem_cons.1 hs with hs | hs
    · subst hs
      have hframe : ∀ f : SfpFields → Nat, (f s, 2) ∈ sfpRanges s →
          getValues (init_sfp_data (initSfpOne st s) rest) (f s) 2 =
            getValues (initSfpOne st s) (f s) 2 := by
        intro f hf
        exact getValues_init_sfp_frame rest (initSfpOne st s) (f s) 2
          (fun p hp => rdisj_symm (hcross _ hf p hp))
      have hbase := initSfpOne_reads st s hid hhd
      refine ⟨?_, ?_, ?_⟩
      · rw [show init_sfp_data st (s :: rest) = init_sfp_data (initSfpOne st s) rest from rfl,
          hframe (fun x => x.tx_addr) (by simp [sfpRanges])]
        exact hbase.1
      · rw [show init_sfp_data st (s :: rest) = init_sfp_data (initSfpOne st s) rest from rfl,
          hframe (fun x => x.rx_addr) (by simp [sfpRanges])]
        exact hbase.2.1
      · rw [show init_sfp_data st (s :: rest) = init_sfp_data (initSfpOne st s) rest from rfl,
          hframe (fun x => x.temp_addr) (by simp [sfpRanges])]
        exact hbase.2.2
    · exact ih (initSfpOne st hd) hrest s hs hid

theorem ljust_mem_lt128 {s : List Nat} {n : Nat} (h : ∀ b ∈ s, b < 128) :
    ∀ b ∈ ljust s n, b < 128 := by
  intro b hb
  rcases List.mem_append.1 hb with h1 | h2
  · exact h b h1
  · have := List.eq_of_mem_replicate h2
    omega

theorem write_string_ok (st : RegFile) (addr : Nat) (s : List Nat) (n : Nat)
    (hascii : ∀ b ∈ s, b < 128) (hlen : s.length ≤ n) (heven : n % 2 = 0) :
    write_string st addr s n = .ok (setValues st addr (pack2 (ljust s n))) := by
  unfold write_string
  rw [encode_ascii_ok s n hascii hlen heven]
  rfl

theorem pack2_ljust_length (s : List Nat) (n : Nat) (hlen : s.length ≤ n) :
    (pack2 (ljust s n)).length = n / 2 := by
  rw [pack2_length, ljust_length s n hlen]

theorem read_string_from_write (st : RegFile) (addr : Nat) (s : List Nat) (n : Nat)
    (hascii : ∀ b ∈ s, b < 128) (hlen : s.length ≤ n) (heven : n % 2 = 0) :
    read_string_from (setValues st addr (pack2 (ljust s n))) addr n =
      .ok (rstrip0 s) := by
  unfold read_string_from
  have hc : (n + 1) / 2 = (pack2 (ljust s n)).length := by
    rw [pack2_ljust_length s n hlen]
    omega
  rw [hc, getValues_setValues_self,
    decode_ascii_pack2 _ (ljust_mem_lt128 hascii)
      (by rw [ljust_length s n hlen]; exact heven)]
  unfold ljust
  rw [rstrip0_append_zeros]

theorem write_product_pair_reads (st : RegFile) (pn sn : StrField) (pv sv : List Nat)
    (hpa : ∀ b ∈ pv, b < 128) (hpl : pv.length ≤ pn.length) (hpe : pn.length % 2 = 0)
    (hsa : ∀ b ∈ sv, b < 128) (hsl : sv.length ≤ sn.length) (hse : sn.length % 2 = 0)
    (hd : rdisj (strRange pn) (strRange sn)) :
    ∃ st2, write_product_pair st ⟨some pn, some sn⟩ pv sv = .ok st2 ∧
      read_string_from st2 pn.address pn.length = .ok (rstrip0 pv) ∧
      read_string_from st2 sn.address sn.length = .ok (rstrip0 sv) ∧
      ∀ b m, rdisj (b, m) (strRange pn) → rdisj (b, m) (strRange sn) →
        getValues st2 b m = getValues st b m := by
  have hw1 := write_string_ok st pn.address pv pn.length hpa hpl hpe
  have hw2 := write_string_ok (setValues st pn.address (pack2 (ljust pv pn.length)))
    sn.address sv sn.length hsa hsl hse
  have hplen : (pack2 (ljust pv pn.length)).length = (pn.length + 1) / 2 := by
    rw [pack2_ljust_length pv pn.length hpl]
    omega
  have hslen : (pack2 (ljust sv sn.length)).length = (sn.length + 1) / 2 := by
    rw [pack2_ljust_length sv sn.length hsl]
    omega
  unfold rdisj strRange at hd
  refine ⟨setValues (setValues st pn.address (pack2 (ljust pv pn.length)))
    sn.address (pack2 (ljust sv sn.length)), ?_, ?_, ?_, ?_⟩
  · show (write_string st pn.address pv pn.length).bind
      (fun st1 => write_string st1 sn.address sv sn.length) = _
    rw [hw1]
    exact hw2
  · show decode_ascii (getValues
      (setValues (setValues st pn.address (pack2 (ljust pv pn.length)))
        sn.address (pack2 (ljust sv sn.length)))
      pn.address ((pn.length + 1) / 2)) = _
    rw [getValues_setValues_disjoint _ _ _ _ _ (by rw [hslen]; omega)]
    exact read_string_from_write st pn.address pv pn.length hpa hpl hpe
  · exact read_string_from_write _ sn.address sv sn.length hsa hsl hse
  · intro b m hbp hbs
    unfold rdisj strRange at hbp hbs
    rw [getValues_setValues_disjoint _ _ _ _ _ (by rw [hslen]; omega),
      getValues_setValues_disjoint _ _ _ _ _ (by rw [hplen]; omega)]

/-- C7: at construction, before any generator tick, every configured float
field is written with its fixed baseline (tx = 3.0, rx = 0.1, temp = 25.0,
given here by their IEEE-754 single bit patterns) and every configured string
field with its placeholder, so decoding the served register space at each
configured field address yields exactly those seeded values.  The hypotheses
are the configuration invariants: SFP ids in 1..4, non-overlapping field
ranges, and string lengths that are even and large enough for the
placeholders. -/
theorem c7_initial_seeding (sfps : List SfpFields) (pn sn : StrField)
    (hids : ∀ s ∈ sfps, s.sfp = 1 ∨ s.sfp = 2 ∨ s.sfp = 3 ∨ s.sfp = 4)
    (hdisj : (sfpsRanges sfps ++ [strRange pn, strRange sn]).Pairwise rdisj)
    (hpl : 10 ≤ pn.length) (hpe : pn.length % 2 = 0)
    (hsl : 11 ≤ sn.length) (hse : sn.length % 2 = 0) :
    ∃ sc, setup_server_context (cfg7 sfps pn sn) = .ok sc ∧
      (∀ s ∈ sfps,
        decode_float32 (getValues (theFile sc) s.tx_addr 2) = some txBaseBits ∧
        decode_float32 (getValues (theFile sc) s.rx_addr 2) = some rxBaseBits ∧
        decode_float32 (getValues (theFile sc) s.temp_addr 2) = some tempBaseBits) ∧
      read_string_from (theFile sc) pn.address pn.length = .ok PROD123456 ∧
      read_string_from (theFile sc) sn.address sn.length = .ok SN987654321 := by
  obtain ⟨hsfps, hstr, hcross⟩ := List.pairwise_append.1 hdisj
  have hps : rdisj (strRange pn) (strRange sn) := by
    rw [List.pairwise_cons] at hstr
    exact hstr.1 _ (by simp)
  obtain ⟨st2, hw, hrp, hrs, hframe⟩ :=
    write_product_pair_reads (init_sfp_data zeroFile sfps) pn sn PROD123456
      SN987654321 (by decide) (by simp [PROD123456]; omega) hpe (by decide)
      (by simp [SN987654321]; omega) hse hps
  have hipi : init_product_info (init_sfp_data zeroFile sfps) ⟨some pn, some sn⟩ =
      .ok st2 := hw
  have hsetup : setup_server_context (cfg7 sfps pn sn) =
      .ok ⟨[st2], [(1, 0), (2, 0)]⟩ := by
    unfold setup_server_context
    rw [show setup_registers (cfg7 sfps pn sn) =
      Except.bind (Except.map (fun st => (st, [1, 2]))
        (init_product_info (init_sfp_data zeroFile sfps) ⟨some pn, some sn⟩))
        pure from rfl]
    rw [hipi]
    rfl
  refine ⟨⟨[st2], [(1, 0), (2, 0)]⟩, hsetup, ?_, ?_, ?_⟩
  · intro s hs
    have hfile : theFile ⟨[st2], [(1, 0), (2, 0)]⟩ = st2 := rfl
    have hbase := init_sfp_reads sfps zeroFile hsfps s hs (hids s hs)
    have hfr : ∀ a : Nat, (a, 2) ∈ sfpRanges s →
        getValues st2 a 2 = getValues (init_sfp_data zeroFile sfps) a 2 := by
      intro a ha
      have hmem := mem_sfpsRanges hs ha
      exact hframe a 2 (hcross _ hmem _ (by simp)) (hcross _ hmem _ (by simp))
    rw [hfile]
    refine ⟨?_, ?_, ?_⟩
    · rw [hfr s.tx_addr (by simp [sfpRanges]), hbase.1]
      exact decode_encode_float txBaseBits
    · rw [hfr s.rx_addr (by simp [sfpRanges]), hbase.2.1]
      exact decode_encode_float rxBaseBits
    · rw [hfr s.temp_addr (by simp [sfpRanges]), hbase.2.2]
      exact decode_encode_float tempBaseBits
  · rw [show theFile ⟨[st2], [(1, 0), (2, 0)]⟩ = st2 from rfl, hrp]
    decide
  · rw [show theFile ⟨[st2], [(1, 0), (2, 0)]⟩ = st2 from rfl, hrs]
    decide

theorem c7_initial_seeding_witness :
    ∃ sc, setup_server_context (cfg7 [⟨1, 100, 102, 104⟩] ⟨200, 16⟩ ⟨220, 16⟩) =
        .ok sc ∧
      (∀ s ∈ [(⟨1, 100, 102, 104⟩ : SfpFields)],
        decode_float32 (getValues (theFile sc) s.tx_addr 2) = some txBaseBits ∧
        decode_float32 (getValues (theFile sc) s.rx_addr 2) = some rxBaseBits ∧
        decode_float32 (getValues (theFile sc) s.temp_addr 2) = some tempBaseBits) ∧
      read_string_from (theFile sc) 200 16 = .ok PROD123456 ∧
      read_string_from (theFile sc) 220 16 = .ok SN987654321 :=
  c7_initial_seeding [⟨1, 100, 102, 104⟩] ⟨200, 16⟩ ⟨220, 16⟩ (by decide)
    (by decide) (by decide) (by decide) (by decide) (by decide)

/-- C10: the generator's tick counter starts at 0, so the string-refresh
condition `counter % 10 == 0` already holds on the very first pass: one tick
after start (from any state, in particular the seeded placeholders), the
product registers decode to the refresh values "PROD-12" and "SN-Q10"; and the
refresh fires exactly on the ticks 10k, not first at tick 10. -/
theorem c10_refresh_schedule (pn sn : StrField) (st : RegFile)
    (hpl : 7 ≤ pn.length) (hpe : pn.length % 2 = 0)
    (hsl : 6 ≤ sn.length) (hse : sn.length % 2 = 0)
    (hd : rdisj (strRange pn) (strRange sn)) :
    product_refresh_fires 0 = true ∧
    (∀ k, product_refresh_fires k = true ↔ k % 10 = 0) ∧
    ∃ st1, run_product_ticks ⟨some pn, some sn⟩ st 1 = .ok st1 ∧
      read_string_from st1 pn.address pn.length = .ok PROD_12 ∧
      read_string_from st1 sn.address sn.length = .ok SN_Q10 := by
  refine ⟨rfl, fun k => by simp [product_refresh_fires], ?_⟩
  obtain ⟨st1, hw, hrp, hrs, -⟩ :=
    write_product_pair_reads st pn sn PROD_12 SN_Q10 (by decide)
      (by simp [PROD_12]; omega) hpe (by decide) (by simp [SN_Q10]; omega) hse hd
  refine ⟨st1, ?_, ?_, ?_⟩
  · show product_tick ⟨some pn, some sn⟩ 0 st = .ok st1
    exact hw
  · rw [hrp]
    decide
  · rw [hrs]
    decide

theorem c10_refresh_schedule_witness :
    product_refresh_fires 0 = true ∧
    (∀ k, product_refresh_fires k = true ↔ k % 10 = 0) ∧
    ∃ st1, run_product_ticks ⟨some ⟨200, 16⟩, some ⟨220, 16⟩⟩ zeroFile 1 = .ok st1 ∧
      read_string_from st1 200 16 = .ok PROD_12 ∧
      read_string_from st1 220 16 = .ok SN_Q10 :=
  c10_refresh_schedule ⟨200, 16⟩ ⟨220, 16⟩ zeroFile (by decide) (by decide)
    (by decide) (by decide) (by decide)

/-- C9 counterexample: the two served devices do not own independent register
arrays.  After construction, device 2 reads zeros at address 100; after a
float write performed through device 1's context at address 100, reading the
same address through device 2's context returns the newly written registers,
not the unchanged zeros. -/
theorem c9_counterexample :
    setup_server_context cfg9 = .ok sc9 ∧
    ctxRead sc9 2 100 2 = some [0, 0] ∧
    ctxRead (ctxWriteFloat sc9 1 100 65536) 2 100 2 = some [1, 0] := by
  refine ⟨rfl, by decide, by decide⟩

theorem assocFind_const_zero (i : Nat) : ∀ (keys : List Nat), i ∈ keys →
    assocFind i (keys.map fun k => (k, 0)) = some 0 := by
  intro keys
  induction keys with
  | nil => intro hi; cases hi
  | cons k rest ih =>
    intro hi
    by_cases hk : k = i
    · simp [assocFind, hk]
    · have hmem : i ∈ rest := by
        rcases List.mem_cons.1 hi with h | h
        · exact absurd h.symm hk
        · exact h
      simp [assocFind, hk, ih hmem]

/-- C9 amended: `_setup_server_context` allocates a single slave context and
binds every served device id to it, so the register arrays are shared, not
per-device: a float write performed through any served device id is read back
through any other served device id at the same address. -/
theorem c9_shared_context (ds : List Device) (sc : ServerContext)
    (h : setup_server_context ds = .ok sc) (i j addr bits : Nat)
    (hi : i ∈ sc.slaves.map Prod.fst) (hj : j ∈ sc.slaves.map Prod.fst) :
    ctxRead (ctxWriteFloat sc i addr bits) j addr 2 = some (encode_float32 bits) := by
  unfold setup_server_context at h
  cases hr : setup_registers ds with
  | error e =>
    rw [hr] at h
    cases h
  | ok r =>
    rw [hr] at h
    have hsc : sc = ⟨[r.1], r.2.map fun k => (k, 0)⟩ := by
      cases h
      rfl
    subst hsc
    have hkeys : (List.map Prod.fst ((r.2).map fun k => ((k : Nat), (0 : Nat)))) = r.2 := by
      rw [List.map_map]
      exact List.map_id r.2
    rw [hkeys] at hi hj
    show ctxRead (ctxWriteFloat ⟨[r.1], r.2.map fun k => (k, 0)⟩ i addr bits)
      j addr 2 = _
    unfold ctxWriteFloat
    rw [assocFind_const_zero i r.2 hi]
    show ctxRead ⟨[write_float r.1 addr bits], r.2.map fun k => (k, 0)⟩ j addr 2 = _
    unfold ctxRead
    rw [assocFind_const_zero j r.2 hj]
    show some (getValues (setValues r.1 addr (encode_float32 bits)) addr 2) = _
    exact congrArg some (getValues_setValues_self r.1 addr (encode_float32 bits))

theorem c9_shared_context_witness :
    (1 : Nat) ∈ sc9.slaves.map Prod.fst ∧ (2 : Nat) ∈ sc9.slaves.map Prod.fst ∧
      ctxRead (ctxWriteFloat sc9 1 100 65536) 2 100 2 =
        some (encode_float32 65536) :=
  ⟨by decide, by decide,
    c9_shared_context cfg9 sc9 rfl 1 2 100 65536 (by decide) (by decide)⟩

/-- C8 counterexample: with two devices both declaring id 1, construction does
not fail with any `DuplicateDeviceId` error — it succeeds (no validation of any
kind is performed at construction). -/
theorem c8_counterexample : exceptOk (setup_server_context cfg8) = true := rfl

theorem setup_registers_none_ok (ds : List Device) :
    (∀ d ∈ ds, d.registers = none) →
    ∀ acc : RegFile × List Nat, ∃ r, List.foldlM setupStep acc ds = .ok r := by
  induction ds with
  | nil => intro _ acc; exact ⟨acc, rfl⟩
  | cons d rest ih =>
    intro h acc
    have hd : d.registers = none := h d (by simp)
    have hrest : ∀ x ∈ rest, x.registers = none := fun x hx => h x (by simp [hx])
    have hstep : ∃ acc1, setupStep acc d = .ok acc1 := by
      unfold setupStep
      rw [hd]
      by_cases hid : d.device_id = 1 ∨ d.device_id = 2
      · rw [if_pos hid]
        exact ⟨_, rfl⟩
      · rw [if_neg hid]
        exact ⟨acc, rfl⟩
    obtain ⟨acc1, hacc1⟩ := hstep
    obtain ⟨r, hrr⟩ := ih hrest acc1
    refine ⟨r, ?_⟩
    show Except.bind (setupStep acc d) (fun b => List.foldlM setupStep b rest) = .ok r
    rw [hacc1]
    exact hrr

/-- C8 amended: `__init__`/`_setup_server_context` perform no configuration
validation at all — no `DuplicateDeviceId` (nor any other `ConfigError`)
exists.  Construction succeeds for any device list without register payloads,
duplicate ids included; a duplicated id is silently rebound to the same shared
slave context. -/
theorem c8_no_validation (ds : List Device) (h : ∀ d ∈ ds, d.registers = none) :
    exceptOk (setup_server_context ds) = true := by
  obtain ⟨r, hrr⟩ := setup_registers_none_ok ds h (zeroFile, [])
  unfold setup_server_context setup_registers
  rw [hrr]
  rfl

theorem c8_no_validation_witness :
    (∀ d ∈ [(⟨1, none⟩ : Device), ⟨2, none⟩, ⟨1, none⟩], d.registers = none) ∧
      exceptOk (setup_server_context [⟨1, none⟩, ⟨2, none⟩, ⟨1, none⟩]) = true :=
  ⟨by decide, c8_no_validation [⟨1, none⟩, ⟨2, none⟩, ⟨1, none⟩] (by decide)⟩

/-- C5: evaluation of the polling cycle at the failing input.  With every read
succeeding the cycle delivers the full snapshot, but when the single read of
SFP 1's rx_power fails, `read_float` returns `None` and the f-string format
`{rx_power:.2f}` raises `TypeError`: the whole cycle aborts with no snapshot —
the other fields of device 1 and all of device 2 are lost, contradicting the
claimed partial-failure semantics (which the `None`-returning error branches of
`read_float`/`read_string` clearly intend). -/
theorem c5_cycle_aborts_on_single_failure :
    read_all_values transportC5 cfgC5 = .error .typeError ∧
    read_all_values transportOk cfgC5 =
      .ok [⟨[(0, 0, 0), (0, 0, 0)], none, none⟩,
        ⟨[], some (some []), some (some [])⟩] := by
  refine ⟨by decide, by decide⟩
